import Mathlib

/-!
Verification development for the SpreadUP market-data ingestion and
spread-detection pipeline.  The Python source is shallowly embedded:
prices, volumes and wall-clock instants become rationals, Python dicts
become insertion-ordered association lists (Python 3.7+ dicts preserve
insertion order, and `dict[k] = v` on an existing key keeps its position),
fallible code returns `Except`/`Option`.  Each definition names the source
construct it embeds.
-/

set_option maxRecDepth 4000

/-- Association-list lookup, the embedding of `d.get(k)` / `k in d` on an
insertion-ordered Python dict. -/
def alookup {α β : Type} [DecidableEq α] (k : α) : List (α × β) → Option β
  | [] => none
  | (a, b) :: t => if a = k then some b else alookup k t

/-- Association-list upsert, the embedding of `d[k] = v` on a Python dict:
an existing key keeps its position, a new key is appended. -/
def aupsert {α β : Type} [DecidableEq α] (k : α) (v : β) : List (α × β) → List (α × β)
  | [] => [(k, v)]
  | (a, b) :: t => if a = k then (k, v) :: t else (a, b) :: aupsert k v t

/-- Fueled worker for `pyReplace`; fuel is the length of the subject so the
recursion is structural.  Mirrors CPython `str.replace` for a non-empty
pattern: scan left to right, replace every non-overlapping occurrence. -/
def pyReplaceAux (pat rep : List Char) : Nat → List Char → List Char
  | _, [] => []
  | 0, l => l
  | fuel + 1, c :: cs =>
    if !pat.isEmpty && pat.isPrefixOf (c :: cs) then
      rep ++ pyReplaceAux pat rep fuel (List.drop (pat.length - 1) cs)
    else
      c :: pyReplaceAux pat rep fuel cs

/-- Embedding of Python `s.replace(pat, rep)` for non-empty `pat` (the only
patterns the source uses are "USDT", "_USDT" and "_"). -/
def pyReplace (s pat rep : String) : String :=
  ⟨pyReplaceAux pat.data rep.data s.data.length s.data⟩

/-- Round-half-to-even on rationals, the idealisation of CPython `round`
on floats. -/
def roundHalfEven (q : ℚ) : ℤ :=
  let f := ⌊q⌋
  let r := q - f
  if r < 1 / 2 then f
  else if 1 / 2 < r then f + 1
  else if f % 2 = 0 then f else f + 1

/-- Embedding of `round(x, 4)` (src/core/calculator.py line 150). -/
def round4 (q : ℚ) : ℚ :=
  (roundHalfEven (q * 10000) : ℚ) / 10000

/-- Embedding of `ExchangeType` (src/models/ticker.py lines 10-14).  The
source enum defines exactly the members MEXC, GATEIO and BINGX; it has no
HTX member. -/
inductive ExchangeType where
  | mexc
  | gateio
  | bingx
deriving DecidableEq

/-- String value of each `ExchangeType` member (src/models/ticker.py). -/
def ExchangeType.value : ExchangeType → String
  | .mexc => "mexc"
  | .gateio => "gateio"
  | .bingx => "bingx"

/-- Embedding of Python attribute lookup `ExchangeType.<NAME>`: `some` for
the three members the enum defines, `none` meaning `AttributeError`. -/
def ExchangeType.fromName (n : String) : Option ExchangeType :=
  if n = "MEXC" then some .mexc
  else if n = "GATEIO" then some .gateio
  else if n = "BINGX" then some .bingx
  else none

/-- Embedding of `MarketType` (src/models/ticker.py lines 17-20). -/
inductive MarketType where
  | spot
  | futures
deriving DecidableEq

/-- String value of each `MarketType` member. -/
def MarketType.value : MarketType → String
  | .spot => "spot"
  | .futures => "futures"

/-- Embedding of `PriceUpdate` (src/models/ticker.py lines 40-52).  The
source class defines symbol, exchange, market_type, price, timestamp and
latency_ms.  The `volume_24h` field here is modelled from the spec (§3
PriceUpdate: "optional 24h-quote-volume"); the source class does NOT
define it, and the source's read of that attribute is embedded by
`PriceUpdate.volume24hAttr` below.  The wall-clock `timestamp` is a
rational; connectors stamp it with `utcnow`, abstracted as an arbitrary
value (0 in concrete instances). -/
structure PriceUpdate where
  symbol : String
  exchange : ExchangeType
  market_type : MarketType
  price : ℚ
  timestamp : ℚ
  latency_ms : Option ℚ
  volume_24h : Option ℚ
deriving DecidableEq

/-- Embedding of the attribute access `spot_data.volume_24h` performed at
src/core/calculator.py line 152.  Because the source `PriceUpdate` pydantic
model defines no such field (src/models/ticker.py lines 40-52), the access
raises `AttributeError`, embedded as `Except.error ()`. -/
def PriceUpdate.volume24hAttr (_ : PriceUpdate) : Except Unit (Option ℚ) :=
  Except.error ()

/-- Embedding of the cache key property `PriceUpdate.key`
(src/models/ticker.py lines 49-52). -/
def PriceUpdate.key (p : PriceUpdate) : String :=
  p.exchange.value ++ ":" ++ p.market_type.value ++ ":" ++ p.symbol

/-- Embedding of `SpreadOpportunity` (src/models/spread.py lines 10-31);
the computed url/`is_valid_arbitrage` properties and the construction-time
`timestamp` are not carried (no claim reads them). -/
structure SpreadOpportunity where
  symbol : String
  base_asset : String
  spot_exchange : ExchangeType
  spot_price : ℚ
  futures_exchange : ExchangeType
  futures_price : ℚ
  spread_percent : ℚ
  detection_latency_ms : Option ℚ
  volume_24h : Option ℚ
deriving DecidableEq

/-- Embedding of `SpreadCalculator.calculate_spread`
(src/core/calculator.py lines 44-60). -/
def calculate_spread (spot_price futures_price : ℚ) : ℚ :=
  if spot_price ≤ 0 ∨ futures_price ≤ 0 then 0
  else (futures_price - spot_price) / spot_price * 100

/-- Embedding of `SpreadCalculator.is_valid_arbitrage`
(src/core/calculator.py lines 62-72). -/
def is_valid_arbitrage (spot_price futures_price : ℚ) : Bool :=
  spot_price < futures_price

/-- Embedding of `SpreadCalculator.is_realistic_spread`
(src/core/calculator.py lines 74-80). -/
def is_realistic_spread (spread_percent : ℚ) : Bool :=
  decide (0 < spread_percent) && decide (spread_percent < 50)

/-- Snapshot type returned by `PriceCache.get_all_spot_prices` /
`get_all_futures_prices` (src/core/cache.py lines 218-244):
symbol ↦ exchange ↦ latest update.  The source keys the inner dict by
`exchange.value` and the calculator converts back with
`ExchangeType(...)`; the embedding keys it by `ExchangeType` directly,
which composes those two bijective steps. -/
abbrev ExchangeMap := List (ExchangeType × PriceUpdate)

/-- Snapshot of one market side, see `ExchangeMap`. -/
abbrev Snapshot := List (String × ExchangeMap)

/-- Embedding of `common_symbols = set(spot) & set(futures)`
(src/core/calculator.py line 102), linearised in the spot snapshot's
order (a Python `set` fixes no order; no claim depends on the
inter-symbol order). -/
def commonSymbols (spot futures : Snapshot) : List String :=
  (spot.map Prod.fst).filter (fun s => (alookup s futures).isSome)

/-- Embedding of the `if exchanges:` filter (src/core/calculator.py lines
120-124); note an empty list is falsy in Python, so it disables the
filter. -/
def passesExchangeFilter : Option (List ExchangeType) → ExchangeType → ExchangeType → Bool
  | none, _, _ => true
  | some l, se, fe => if l.isEmpty then true else l.contains se && l.contains fe

/-- One iteration of the triple loop of `find_opportunities` that passed
the acceptance test (src/core/calculator.py lines 111-134). -/
structure Candidate where
  symbol : String
  spot_exchange : ExchangeType
  spot_data : PriceUpdate
  futures_exchange : ExchangeType
  futures_data : PriceUpdate
  spread : ℚ
deriving DecidableEq

/-- Embedding of the candidate enumeration and acceptance test of
`find_opportunities` (src/core/calculator.py lines 111-134): for every
common symbol, every (spot exchange, futures exchange) pair that passes
the optional exchange filter and whose spread satisfies
`spread ≥ threshold and is_realistic_spread(spread)`. -/
def acceptedCandidates (spot futures : Snapshot)
    (exchanges : Option (List ExchangeType)) (threshold : ℚ) : List Candidate :=
  (commonSymbols spot futures).flatMap fun sym =>
    ((alookup sym spot).getD []).flatMap fun p =>
      ((alookup sym futures).getD []).filterMap fun q =>
        if passesExchangeFilter exchanges p.1 q.1 then
          let sp := calculate_spread p.2.price q.2.price
          if decide (threshold ≤ sp) && is_realistic_spread sp then
            some ⟨sym, p.1, p.2, q.1, q.2, sp⟩
          else none
        else none

/-- Embedding of `symbol.replace("USDT", "").replace("_USDT", "")`
(src/core/calculator.py line 136). -/
def baseAssetOf (sym : String) : String :=
  pyReplace (pyReplace sym "USDT" "") "_USDT" ""

/-- Python truthiness of an optional float (`0.0` is falsy), used by the
latency guard at src/core/calculator.py line 140. -/
def truthyOpt : Option ℚ → Bool
  | none => false
  | some x => decide (x ≠ 0)

/-- Embedding of the detection-latency computation
(src/core/calculator.py lines 138-141). -/
def detectionLatency (a b : Option ℚ) : Option ℚ :=
  if truthyOpt a && truthyOpt b then some (max (a.getD 0) (b.getD 0)) else none

/-- Embedding of the `SpreadOpportunity(...)` construction
(src/core/calculator.py lines 143-153) with the 24h volume read from the
spec-modelled `volume_24h` field of `PriceUpdate` (spec §3).  The source's
own construction is `mkOpportunitySrc`, which raises at that read. -/
def mkOpportunity (c : Candidate) : SpreadOpportunity :=
  { symbol := c.symbol
    base_asset := baseAssetOf c.symbol
    spot_exchange := c.spot_exchange
    spot_price := c.spot_data.price
    futures_exchange := c.futures_exchange
    futures_price := c.futures_data.price
    spread_percent := round4 c.spread
    detection_latency_ms := detectionLatency c.spot_data.latency_ms c.futures_data.latency_ms
    volume_24h := c.spot_data.volume_24h }

/-- Faithful embedding of the `SpreadOpportunity(...)` construction
(src/core/calculator.py lines 143-153): the read
`spot_data.volume_24h` raises `AttributeError` because the source
`PriceUpdate` has no such field, so the construction never completes. -/
def mkOpportunitySrc (c : Candidate) : Except Unit SpreadOpportunity := do
  let vol ← c.spot_data.volume24hAttr
  pure { symbol := c.symbol
         base_asset := baseAssetOf c.symbol
         spot_exchange := c.spot_exchange
         spot_price := c.spot_data.price
         futures_exchange := c.futures_exchange
         futures_price := c.futures_data.price
         spread_percent := round4 c.spread
         detection_latency_ms := detectionLatency c.spot_data.latency_ms c.futures_data.latency_ms
         volume_24h := vol }

/-- Insert into a list already sorted by descending `spread_percent`,
passing over strictly greater heads; together with `sortBySpreadDesc`
this embeds the stable Python `list.sort(key=lambda x: x.spread_percent,
reverse=True)` (src/core/calculator.py line 158). -/
def insertBySpread (o : SpreadOpportunity) : List SpreadOpportunity → List SpreadOpportunity
  | [] => [o]
  | h :: t => if o.spread_percent < h.spread_percent then h :: insertBySpread o t else o :: h :: t

/-- Stable descending sort by `spread_percent`, the embedding of
`opportunities.sort(key=lambda x: x.spread_percent, reverse=True)`
(src/core/calculator.py line 158).  Python's sort is stable, so items
with equal keys keep their append order. -/
def sortBySpreadDesc : List SpreadOpportunity → List SpreadOpportunity
  | [] => []
  | h :: t => insertBySpread h (sortBySpreadDesc t)

/-- Embedding of `SpreadCalculator.find_opportunities`
(src/core/calculator.py lines 82-166) with the volume read taken from the
spec-modelled field (see `mkOpportunity`); this is the source algorithm
with the `volume_24h` AttributeError repaired, used to analyse the
filter and sort.  `findOpportunitiesSrc` is the faithful version. -/
def findOpportunities (spot futures : Snapshot)
    (exchanges : Option (List ExchangeType)) (threshold : ℚ) : List SpreadOpportunity :=
  sortBySpreadDesc ((acceptedCandidates spot futures exchanges threshold).map mkOpportunity)

/-- Faithful embedding of `SpreadCalculator.find_opportunities`
(src/core/calculator.py lines 82-166): each accepted candidate is built
with `mkOpportunitySrc`, whose `volume_24h` read raises, so the call
raises at the first accepted candidate and returns `[]` only when no
candidate is accepted. -/
def findOpportunitiesSrc (spot futures : Snapshot)
    (exchanges : Option (List ExchangeType)) (threshold : ℚ) : Except Unit (List SpreadOpportunity) := do
  let l ← (acceptedCandidates spot futures exchanges threshold).mapM mkOpportunitySrc
  pure (sortBySpreadDesc l)

/-- Cache entry as stored by `InMemoryCache.set` (src/core/cache.py lines
52-66): the value plus absolute expiry and update instants. -/
structure CacheEntry where
  value : PriceUpdate
  expires_at : ℚ
  updated_at : ℚ
deriving DecidableEq

/-- Default TTL of the in-memory cache (src/core/cache.py line 148:
`InMemoryCache(default_ttl=300)`). -/
def defaultTTL : ℚ := 300

/-- State of `PriceCache` (src/core/cache.py lines 133-152): the
TTL-carrying `InMemoryCache._cache` dict and the `_latest_prices`
quick-lookup dict. -/
structure PriceCacheState where
  memoryCache : List (String × CacheEntry)
  latestPrices : List (String × PriceUpdate)
deriving DecidableEq

/-- The freshly constructed cache. -/
def emptyCache : PriceCacheState := ⟨[], []⟩

/-- Embedding of `PriceCache.update_price` (src/core/cache.py lines
175-199, Redis absent): write the in-memory entry with
`expires_at = now + TTL` and the quick-lookup entry. -/
def updatePrice (st : PriceCacheState) (now : ℚ) (p : PriceUpdate) : PriceCacheState :=
  { memoryCache := aupsert p.key ⟨p, now + defaultTTL, now⟩ st.memoryCache
    latestPrices := aupsert p.key p st.latestPrices }

/-- Embedding of `InMemoryCache.get` (src/core/cache.py lines 34-50):
the entry is returned unless `now > expires_at` (the stats and the lazy
delete are not modelled; they do not affect the returned value). -/
def memoryGet (st : PriceCacheState) (now : ℚ) (key : String) : Option PriceUpdate :=
  match alookup key st.memoryCache with
  | none => none
  | some e => if e.expires_at < now then none else some e.value

/-- Embedding of `PriceCache.get_price` (src/core/cache.py lines
201-216): the `_latest_prices` quick lookup is consulted FIRST and has no
expiry check; only on a miss does the call fall back to the TTL-checked
`InMemoryCache.get`. -/
def getPrice (st : PriceCacheState) (now : ℚ) (ex : ExchangeType) (mkt : MarketType)
    (sym : String) : Option PriceUpdate :=
  let key := ex.value ++ ":" ++ mkt.value ++ ":" ++ sym
  match alookup key st.latestPrices with
  | some p => some p
  | none => memoryGet st now key

/-- One step of the snapshot grouping
`result[price.symbol][price.exchange.value] = price`
(src/core/cache.py lines 226-228). -/
def snapInsert (snap : Snapshot) (p : PriceUpdate) : Snapshot :=
  match alookup p.symbol snap with
  | some em => aupsert p.symbol (aupsert p.exchange p em) snap
  | none => snap ++ [(p.symbol, [(p.exchange, p)])]

/-- Embedding of `PriceCache.get_all_spot_prices` (src/core/cache.py
lines 218-230): iterate `_latest_prices` in insertion order, keep spot
entries, group by symbol then exchange.  Note the source performs NO
expiry check here. -/
def getAllSpotPrices (st : PriceCacheState) : Snapshot :=
  (st.latestPrices.map Prod.snd).foldl
    (fun acc p => if p.market_type = MarketType.spot then snapInsert acc p else acc) []

/-- Embedding of `PriceCache.get_all_futures_prices` (src/core/cache.py
lines 232-244); no expiry check, as for the spot side. -/
def getAllFuturesPrices (st : PriceCacheState) : Snapshot :=
  (st.latestPrices.map Prod.snd).foldl
    (fun acc p => if p.market_type = MarketType.futures then snapInsert acc p else acc) []

/-- Hardcoded cooldown of the calculator's alert gate
(src/core/calculator.py line 42: `self._alert_cooldown_seconds = 60`). -/
def alertCooldownSeconds : ℚ := 60

/-- The key of the calculator's alert gate (src/core/calculator.py line
178): `f"{symbol}:{spot_exchange.value}:{futures_exchange.value}"` — the
exchange pair is part of the key, not the base asset alone. -/
def cooldownKey (opp : SpreadOpportunity) : String :=
  opp.symbol ++ ":" ++ opp.spot_exchange.value ++ ":" ++ opp.futures_exchange.value

/-- Embedding of `SpreadCalculator.check_alert_cooldown`
(src/core/calculator.py lines 168-186): returns `false` without mutating
when the key was alerted less than 60 s ago, else records `now` under the
key and returns `true`. -/
def checkAlertCooldown (lastAlertTimes : List (String × ℚ)) (now : ℚ)
    (opp : SpreadOpportunity) : Bool × List (String × ℚ) :=
  match alookup (cooldownKey opp) lastAlertTimes with
  | some last =>
    if now - last < alertCooldownSeconds then (false, lastAlertTimes)
    else (true, aupsert (cooldownKey opp) now lastAlertTimes)
  | none => (true, aupsert (cooldownKey opp) now lastAlertTimes)

/-- Embedding of `UserFilters` (src/models/filters.py lines 9-27); the
`enabled_exchanges` set is carried as a list read only through
membership. -/
structure UserFilters where
  min_spread : ℚ
  max_spread : ℚ
  min_volume : ℚ
  enabled_exchanges : List String
deriving DecidableEq

/-- Field defaults of `UserFilters` (src/models/filters.py lines 13-23). -/
def defaultUserFilters : UserFilters :=
  ⟨3, 50, 0, ["mexc", "gateio", "bingx", "htx"]⟩

/-- Embedding of `UserFilters.is_exchange_enabled`
(src/models/filters.py lines 25-27). -/
def UserFilters.is_exchange_enabled (f : UserFilters) (exchange : String) : Bool :=
  f.enabled_exchanges.contains exchange.toLower

/-- Embedding of `UserFilters.is_spread_valid` (src/models/filters.py
lines 29-31). -/
def UserFilters.is_spread_valid (f : UserFilters) (spread_percent : ℚ) : Bool :=
  decide (f.min_spread ≤ spread_percent) && decide (spread_percent ≤ f.max_spread)

/-- Embedding of `UserFilters.is_volume_valid` (src/models/filters.py
lines 33-37): `none` ("volume unknown") passes unconditionally. -/
def UserFilters.is_volume_valid (f : UserFilters) : Option ℚ → Bool
  | none => true
  | some v => decide (f.min_volume ≤ v)

/-- Embedding of `UserFilters.should_alert` (src/models/filters.py lines
39-61). -/
def UserFilters.should_alert (f : UserFilters) (spread_percent : ℚ) (volume : Option ℚ)
    (spot_exchange futures_exchange : String) : Bool :=
  if !(f.is_spread_valid spread_percent) then false
  else if !(f.is_volume_valid volume) then false
  else if !(f.is_exchange_enabled spot_exchange) then false
  else if !(f.is_exchange_enabled futures_exchange) then false
  else true

/-- Embedding of `FilterService.get_filters` (src/bot/filters_service.py
lines 17-22): defaults are created for an unknown user. -/
def getFilters (filters : List (Int × UserFilters)) (userId : Int) : UserFilters :=
  (alookup userId filters).getD defaultUserFilters

/-- Embedding of `FilterService.should_send_alert`
(src/bot/filters_service.py lines 66-76).  The `volume` parameter is a
plain float there — never `None` — hence the `some`. -/
def shouldSendAlert (filters : List (Int × UserFilters)) (userId : Int) (spread_percent : ℚ)
    (volume : ℚ) (spot_exchange futures_exchange : String) : Bool :=
  (getFilters filters userId).should_alert spread_percent (some volume) spot_exchange futures_exchange

/-- Embedding of the argument coercion `opp.volume_24h or 0` at
src/bot/notifications.py line 118: Python `or` maps both `None` and the
falsy `0.0` to `0`. -/
def deliveryVolumeArg (v : Option ℚ) : ℚ := v.getD 0

/-- The volume conjunct as evaluated on the alert delivery path: the
coerced argument of src/bot/notifications.py line 118 fed into
`UserFilters.is_volume_valid` through `should_send_alert`. -/
def deliveryVolumeCheck (f : UserFilters) (v : Option ℚ) : Bool :=
  f.is_volume_valid (some (deliveryVolumeArg v))

/-- Cooldown of the notification service (src/bot/notifications.py line
44: `self._notification_cooldown = 1800`). -/
def notificationCooldown : ℚ := 1800

/-- State of `NotificationService` (src/bot/notifications.py lines
28-52): subscriber set (as an insertion-ordered list), the per-base-asset
`_last_notification_time` dict, and the optional filter service with its
per-user filter dict. -/
structure NotifState where
  subscribers : List Int
  lastNotificationTime : List (String × ℚ)
  filterService : Option (List (Int × UserFilters))
deriving DecidableEq

/-- Per-subscriber gate of `NotificationService.send_alert`
(src/bot/notifications.py lines 113-130): when a filter service is set,
`should_send_alert` is called with `opp.volume_24h or 0`. -/
def userPassesFilters (fs : Option (List (Int × UserFilters))) (userId : Int)
    (opp : SpreadOpportunity) : Bool :=
  match fs with
  | none => true
  | some filters =>
    shouldSendAlert filters userId opp.spread_percent (deliveryVolumeArg opp.volume_24h)
      opp.spot_exchange.value opp.futures_exchange.value

/-- Embedding of `NotificationService.send_alert`
(src/bot/notifications.py lines 76-135).  Returns the new state and the
list of subscribers a send task was created for.  With subscribers
present, the base-asset cooldown is checked; when it passes, the
timestamp is recorded (line 100) BEFORE any per-subscriber filter runs
(lines 112-132); per-user send outcomes never touch the timestamp. -/
def sendAlert (st : NotifState) (now : ℚ) (opp : SpreadOpportunity) : NotifState × List Int :=
  if st.subscribers.isEmpty then (st, [])
  else
    let key := opp.base_asset
    let proceed : Bool :=
      match alookup key st.lastNotificationTime with
      | some last => decide (¬(now - last < notificationCooldown))
      | none => true
    if proceed then
      ({ st with lastNotificationTime := aupsert key now st.lastNotificationTime },
       st.subscribers.filter (fun userId => userPassesFilters st.filterService userId opp))
    else (st, [])

/-- State of the token-bucket `RateLimiter` (src/utils/decorators.py
lines 44-59). -/
structure RateLimiterState where
  rate : ℚ
  capacity : ℚ
  tokens : ℚ
  last_update : ℚ
deriving DecidableEq

/-- Embedding of `RateLimiter.acquire` (src/utils/decorators.py lines
61-77): refill by elapsed time capped at capacity, then either consume a
token or (after the modelled-out sleep) zero the bucket. -/
def rateLimiterAcquire (st : RateLimiterState) (now : ℚ) : RateLimiterState :=
  let tokens := min st.capacity (st.tokens + (now - st.last_update) * st.rate)
  if tokens < 1 then { st with tokens := 0, last_update := now }
  else { st with tokens := tokens - 1, last_update := now }

/-- Phases of the circuit breaker (src/utils/decorators.py line 111). -/
inductive BreakerPhase where
  | closedPhase
  | openPhase
  | halfOpenPhase
deriving DecidableEq

/-- State of `CircuitBreaker` (src/utils/decorators.py lines 88-112). -/
structure CircuitBreakerState where
  failure_threshold : Nat
  recovery_timeout : ℚ
  failure_count : Nat
  last_failure_time : Option ℚ
  phase : BreakerPhase
deriving DecidableEq

/-- The breaker a connector constructs (src/exchanges/base.py line 69:
`CircuitBreaker(failure_threshold=5, recovery_timeout=30)`). -/
def initialBreaker : CircuitBreakerState :=
  ⟨5, 30, 0, none, .closedPhase⟩

/-- Open-state gate at the top of `CircuitBreaker.call`
(src/utils/decorators.py lines 116-123): when open and the recovery
timeout has not elapsed, raise without performing the call. -/
def breakerBeforeCall (b : CircuitBreakerState) (now : ℚ) : Except Unit CircuitBreakerState :=
  match b.phase with
  | .openPhase =>
    match b.last_failure_time with
    | some t =>
      if b.recovery_timeout ≤ now - t then .ok { b with phase := .halfOpenPhase }
      else .error ()
    | none => .ok b
  | _ => .ok b

/-- Success path of `CircuitBreaker.call` (src/utils/decorators.py lines
126-131). -/
def breakerAfterSuccess (b : CircuitBreakerState) : CircuitBreakerState :=
  { b with phase := if b.phase = .halfOpenPhase then .closedPhase else b.phase
           failure_count := 0 }

/-- Failure path of `CircuitBreaker.call` (src/utils/decorators.py lines
133-141). -/
def breakerAfterFailure (b : CircuitBreakerState) (now : ℚ) : CircuitBreakerState :=
  let fc := b.failure_count + 1
  { b with failure_count := fc
           last_failure_time := some now
           phase := if b.failure_threshold ≤ fc then .openPhase else b.phase }

/-- Embedding of `CircuitBreaker.call` (src/utils/decorators.py lines
114-141): `.error ()` is the fail-fast "Circuit breaker is open" raise
(call not performed); `.ok (b, true)` means the wrapped call ran (its own
success is the `succeeds` argument; a failing call re-raises but still
ran). -/
def circuitBreakerCall (b : CircuitBreakerState) (now : ℚ) (succeeds : Bool) :
    Except Unit (CircuitBreakerState × Bool) :=
  match breakerBeforeCall b now with
  | .error _ => .error ()
  | .ok b1 =>
    if succeeds then .ok (breakerAfterSuccess b1, true)
    else .ok (breakerAfterFailure b1 now, true)

/-- Connector-side REST state (src/exchanges/base.py lines 67-81): the
limiter and breaker constructed in `__init__` plus the stats counters
touched by `_rest_request`. -/
structure ConnectorRestState where
  limiter : RateLimiterState
  breaker : CircuitBreakerState
  rest_requests : Nat
  errors : Nat
deriving DecidableEq

/-- Connector REST state right after `BaseExchangeConnector.__init__`
(src/exchanges/base.py lines 67-69): limiter rate 10, capacity 20, full
bucket; breaker threshold 5, timeout 30, closed. -/
def initialConnectorRest : ConnectorRestState :=
  ⟨⟨10, 20, 20, 0⟩, initialBreaker, 0, 0⟩

/-- Outcome of the underlying `session.get` in `_rest_request`. -/
inductive RestOutcome where
  | okJson
  | httpError
  | netFailure
deriving DecidableEq

/-- Embedding of `BaseExchangeConnector._rest_request`
(src/exchanges/base.py lines 254-287): acquire the rate limiter, then
perform the request; HTTP errors return `None`, exceptions are swallowed
into the `errors` counter.  The returned `Bool` is "the request was
performed" — it is always `true`: the circuit breaker constructed in
`__init__` is never consulted here (or anywhere else), so nothing ever
fails fast. -/
def restRequest (st : ConnectorRestState) (now : ℚ) (outcome : RestOutcome) :
    ConnectorRestState × Bool :=
  let limiter := rateLimiterAcquire st.limiter now
  match outcome with
  | .okJson => ({ st with limiter := limiter, rest_requests := st.rest_requests + 1 }, true)
  | .httpError => ({ st with limiter := limiter, rest_requests := st.rest_requests + 1 }, true)
  | .netFailure => ({ st with limiter := limiter, errors := st.errors + 1 }, true)

/-- Iterate `_rest_request` over a timed sequence of outcomes. -/
def restSeq (st : ConnectorRestState) : List (ℚ × RestOutcome) → ConnectorRestState
  | [] => st
  | (t, o) :: rest => restSeq (restRequest st t o).1 rest

/-- Shape abstraction of a MEXC spot book-ticker frame as accessed by
`MEXCConnector._parse_spot_ws_message` (src/exchanges/mexc/client.py
lines 229-253): `has_d_s` is `"d" in data and "s" in data["d"]`, `s` is
`d.get("s", "")`, `b`/`a` are `float(d.get("b", 0))`/`float(d.get("a",
0))` (frames whose fields fail `float()` are absorbed by the
try/except and yield `none`; they are not represented). -/
structure MexcSpotWsMsg where
  has_d_s : Bool
  s : String
  b : ℚ
  a : ℚ
deriving DecidableEq

/-- Embedding of `MEXCConnector._parse_spot_ws_message`
(src/exchanges/mexc/client.py lines 229-253).  The connector's known
symbol set (`self._spot_symbols`, fetched at initialize) is in scope as
`knownSymbols` but — exactly as in the source — never consulted: any
symbol string with positive bid and ask yields an update.  `utcnow` is
abstracted as timestamp 0. -/
def parseSpotWsMessage (knownSymbols : List String) (m : MexcSpotWsMsg) : Option PriceUpdate :=
  if m.has_d_s then
    if decide (0 < m.b) && decide (0 < m.a) then
      some { symbol := m.s
             exchange := .mexc
             market_type := .spot
             price := (m.b + m.a) / 2
             timestamp := 0
             latency_ms := none
             volume_24h := none }
    else none
  else none

/-- Shape abstraction of a MEXC futures ticker frame as accessed by
`MEXCConnector._parse_futures_ws_message` (src/exchanges/mexc/client.py
lines 255-275). -/
structure MexcFuturesWsMsg where
  has_data_symbol : Bool
  symbol : String
  lastPrice : ℚ
deriving DecidableEq

/-- Embedding of `MEXCConnector._parse_futures_ws_message`
(src/exchanges/mexc/client.py lines 255-275); the known symbol set is
again in scope and again never consulted. -/
def parseFuturesWsMessage (knownSymbols : List String) (m : MexcFuturesWsMsg) :
    Option PriceUpdate :=
  if m.has_data_symbol then
    if decide (0 < m.lastPrice) then
      some { symbol := pyReplace m.symbol "_" ""
             exchange := .mexc
             market_type := .futures
             price := m.lastPrice
             timestamp := 0
             latency_ms := none
             volume_24h := none }
    else none
  else none

/-- Constructor arguments of `BaseExchangeConnector.__init__` carried by
every concrete connector (src/exchanges/base.py lines 23-51). -/
structure ConnectorConfig where
  exchange_type : ExchangeType
  spot_rest_base : String
  spot_ws_base : String
  futures_rest_base : String
  futures_ws_base : String
deriving DecidableEq

/-- Embedding of `HTXConnector.__init__` (src/exchanges/htx/client.py
lines 21-30): it evaluates the attribute `ExchangeType.HTX` to pass as
`exchange_type`.  The source enum has no HTX member, so the lookup is
`none` and instantiation raises `AttributeError`, embedded as
`Except.error ()`. -/
def htxConnectorInit : Except Unit ConnectorConfig :=
  match ExchangeType.fromName "HTX" with
  | some e => .ok ⟨e, "https://api.htx.com", "wss://api.htx.com/ws",
                   "https://api.hbdm.com", "wss://api.hbdm.com/ws"⟩
  | none => .error ()

/-- Lookup after an upsert of the same key returns the upserted value. -/
theorem alookup_aupsert_self {β : Type} (l : List (String × β)) (k : String) (v : β) :
    alookup k (aupsert k v l) = some v := by
  induction l with
  | nil => simp [alookup, aupsert]
  | cons h t ih =>
    obtain ⟨a, b⟩ := h
    by_cases hak : a = k
    · simp [alookup, aupsert, hak]
    · simp [alookup, aupsert, hak, ih]

/-- Membership is preserved by `insertBySpread`. -/
theorem mem_insertBySpread {a o : SpreadOpportunity} {l : List SpreadOpportunity} :
    a ∈ insertBySpread o l ↔ a = o ∨ a ∈ l := by
  induction l with
  | nil => simp [insertBySpread]
  | cons h t ih =>
    by_cases hc : o.spread_percent < h.spread_percent
    · simp only [insertBySpread, if_pos hc, List.mem_cons, ih]
      tauto
    · simp only [insertBySpread, if_neg hc, List.mem_cons]

/-- `sortBySpreadDesc` permutes its input, so membership is unchanged. -/
theorem mem_sortBySpreadDesc {a : SpreadOpportunity} {l : List SpreadOpportunity} :
    a ∈ sortBySpreadDesc l ↔ a ∈ l := by
  induction l with
  | nil => simp [sortBySpreadDesc]
  | cons h t ih =>
    simp only [sortBySpreadDesc, mem_insertBySpread, ih, List.mem_cons]

/-- Inserting keeps a list sorted by non-increasing `spread_percent`. -/
theorem pairwise_insertBySpread {o : SpreadOpportunity} {l : List SpreadOpportunity}
    (h : l.Pairwise (fun a b => b.spread_percent ≤ a.spread_percent)) :
    (insertBySpread o l).Pairwise (fun a b => b.spread_percent ≤ a.spread_percent) := by
  induction l with
  | nil => simp [insertBySpread]
  | cons hd t ih =>
    rw [List.pairwise_cons] at h
    by_cases hc : o.spread_percent < hd.spread_percent
    · rw [insertBySpread, if_pos hc, List.pairwise_cons]
      refine ⟨?_, ih h.2⟩
      intro x hx
      rcases mem_insertBySpread.1 hx with hxo | hxt
      · exact hxo ▸ le_of_lt hc
      · exact h.1 x hxt
    · rw [insertBySpread, if_neg hc, List.pairwise_cons]
      push_neg at hc
      refine ⟨?_, List.pairwise_cons.2 h⟩
      intro x hx
      rcases List.mem_cons.1 hx with hxh | hxt
      · exact hxh ▸ hc
      · exact le_trans (h.1 x hxt) hc

/-- The output of `sortBySpreadDesc` is sorted by non-increasing
`spread_percent`. -/
theorem pairwise_sortBySpreadDesc (l : List SpreadOpportunity) :
    (sortBySpreadDesc l).Pairwise (fun a b => b.spread_percent ≤ a.spread_percent) := by
  induction l with
  | nil => simp [sortBySpreadDesc]
  | cons h t ih => exact pairwise_insertBySpread ih

/-- Every accepted candidate of the triple loop carries its acceptance
facts: the spread is the one computed from its own sides and satisfies the
threshold and realism guards (src/core/calculator.py lines 127-134). -/
theorem mem_acceptedCandidates {spot futures : Snapshot}
    {exchanges : Option (List ExchangeType)} {threshold : ℚ} {c : Candidate}
    (h : c ∈ acceptedCandidates spot futures exchanges threshold) :
    c.spread = calculate_spread c.spot_data.price c.futures_data.price ∧
    threshold ≤ c.spread ∧ 0 < c.spread ∧ c.spread < 50 := by
  simp only [acceptedCandidates, List.mem_flatMap, List.mem_filterMap] at h
  obtain ⟨sym, _, p, _, q, _, hsome⟩ := h
  by_cases hpf : passesExchangeFilter exchanges p.1 q.1 = true
  · rw [if_pos hpf] at hsome
    by_cases hacc : (decide (threshold ≤ calculate_spread p.2.price q.2.price) &&
        is_realistic_spread (calculate_spread p.2.price q.2.price)) = true
    · rw [if_pos hacc] at hsome
      rw [Bool.and_eq_true, is_realistic_spread, Bool.and_eq_true] at hacc
      obtain ⟨h1, h2, h3⟩ := hacc
      injection hsome with hc
      subst hc
      exact ⟨rfl, of_decide_eq_true h1, of_decide_eq_true h2, of_decide_eq_true h3⟩
    · rw [if_neg hacc] at hsome
      exact Option.noConfusion hsome
  · rw [if_neg hpf] at hsome
    exact Option.noConfusion hsome

/-- Spot-side price update of scenario S1: (mexc, spot, BTCUSDT, 30000),
24h volume 1e8 carried in the spec-modelled field. -/
def s1SpotUpdate : PriceUpdate :=
  ⟨"BTCUSDT", .mexc, .spot, 30000, 0, none, some 100000000⟩

/-- Futures-side price update of scenario S1: (gateio, futures, BTCUSDT,
31200). -/
def s1FuturesUpdate : PriceUpdate :=
  ⟨"BTCUSDT", .gateio, .futures, 31200, 0, none, none⟩

/-- Cache state of scenario S1, built through `update_price`. -/
def s1Cache : PriceCacheState :=
  updatePrice (updatePrice emptyCache 0 s1SpotUpdate) 0 s1FuturesUpdate

/-- Spot snapshot the calculator reads in scenario S1. -/
def s1Spot : Snapshot := getAllSpotPrices s1Cache

/-- Futures snapshot the calculator reads in scenario S1. -/
def s1Futures : Snapshot := getAllFuturesPrices s1Cache

/-- The opportunity S1 would produce (spread 4 = round4 of the raw 4,
volume from the spot side). -/
def s1Opportunity : SpreadOpportunity :=
  ⟨"BTCUSDT", "BTC", .mexc, 30000, .gateio, 31200, 4, none, some 100000000⟩

/-- The S1 snapshots evaluate to the expected one-entry groupings. -/
theorem s1Snapshots_eq :
    s1Spot = [("BTCUSDT", [(.mexc, s1SpotUpdate)])] ∧
    s1Futures = [("BTCUSDT", [(.gateio, s1FuturesUpdate)])] := by
  constructor <;> decide

/-- The base asset of BTCUSDT under the source's double replace. -/
theorem baseAsset_BTCUSDT : baseAssetOf "BTCUSDT" = "BTC" := by decide

/-- On the S1 snapshots the volume-repaired calculator finds exactly the
S1 opportunity. -/
theorem s1_findOpportunities_eq :
    findOpportunities s1Spot s1Futures none 3 = [s1Opportunity] := by
  rw [s1Snapshots_eq.1, s1Snapshots_eq.2]
  norm_num [findOpportunities, acceptedCandidates, commonSymbols, alookup, passesExchangeFilter,
    calculate_spread, is_realistic_spread, mkOpportunity, sortBySpreadDesc, insertBySpread,
    round4, roundHalfEven, baseAsset_BTCUSDT, detectionLatency, truthyOpt,
    s1SpotUpdate, s1FuturesUpdate, s1Opportunity, List.filterMap_cons, List.flatMap_cons,
    List.flatMap_nil]

/-- C1: with the cache holding exactly (mexc, spot, BTCUSDT, 30000,
vol 1e8) and (gateio, futures, BTCUSDT, 31200) and threshold 3.0, the
faithful `find_opportunities` does NOT return normally: the candidate is
accepted (spread 4 ≥ 3) and the construction of its `SpreadOpportunity`
raises `AttributeError` at the read `spot_data.volume_24h`
(src/core/calculator.py line 152), because the source `PriceUpdate` has
no such field.  With that one read repaired, the call would return
exactly the claimed opportunity: spread 4.0, spot mexc, futures gateio,
volume 1e8 from the spot side. -/
theorem find_opportunities_s1_raises :
    findOpportunitiesSrc s1Spot s1Futures none 3 = .error () ∧
    (findOpportunities s1Spot s1Futures none 3).map
      (fun o => (o.spread_percent, o.spot_exchange, o.futures_exchange, o.volume_24h)) =
      [(4, .mexc, .gateio, some 100000000)] := by
  constructor
  · rw [s1Snapshots_eq.1, s1Snapshots_eq.2]
    norm_num [findOpportunitiesSrc, acceptedCandidates, commonSymbols, alookup,
      passesExchangeFilter, calculate_spread, is_realistic_spread, mkOpportunitySrc,
      PriceUpdate.volume24hAttr, s1SpotUpdate, s1FuturesUpdate,
      List.filterMap_cons, List.flatMap_cons, List.flatMap_nil, List.mapM, List.mapM.loop]
  · rw [s1_findOpportunities_eq]
    decide

/-- The price update written for the C2 expiry scenario at t = 0. -/
def c2Update : PriceUpdate := ⟨"BTCUSDT", .mexc, .spot, 30000, 0, none, none⟩

/-- Cache holding only `c2Update`, written at t = 0 (TTL 300, so
`expires_at` = 300). -/
def c2Cache : PriceCacheState := updatePrice emptyCache 0 c2Update

/-- C2: a read AFTER the expiry instant does not treat the entry as
absent.  The entry was written at t = 0 with TTL 300; at t = 301 the
TTL-checked inner `InMemoryCache.get` would return none, but
`PriceCache.get_price` consults the `_latest_prices` quick-lookup dict
first (src/core/cache.py lines 210-213), which never expires, and the
snapshots the calculator reads iterate `_latest_prices` with no expiry
check at all (lines 218-244) — so both still return the dead price.  A
get strictly before expiry also returns it (the claim's true half). -/
theorem expired_entry_still_visible :
    getPrice c2Cache 301 .mexc .spot "BTCUSDT" = some c2Update ∧
    getAllSpotPrices c2Cache = [("BTCUSDT", [(.mexc, c2Update)])] ∧
    memoryGet c2Cache 301 "mexc:spot:BTCUSDT" = none ∧
    getPrice c2Cache 299 .mexc .spot "BTCUSDT" = some c2Update := by
  refine ⟨by decide, by decide, ?_, by decide⟩
  simp [memoryGet, c2Cache, c2Update, updatePrice, emptyCache, aupsert, alookup,
    PriceUpdate.key, ExchangeType.value, MarketType.value, defaultTTL]
  norm_num

/-- C4: the exchange-identifier enum is NOT the claimed four-venue
enumeration: `ExchangeType` defines only mexc, gateio and bingx
(src/models/ticker.py lines 10-14), no member's value is "htx", and
`HTXConnector.__init__` (src/exchanges/htx/client.py line 23) evaluates
the missing attribute `ExchangeType.HTX`, so instantiating the HTX
connector raises `AttributeError`. -/
theorem exchange_type_lacks_htx :
    htxConnectorInit = .error () ∧
    (∀ e : ExchangeType, ¬e.value = "htx") ∧
    [ExchangeType.mexc, ExchangeType.gateio, ExchangeType.bingx].length = 3 := by
  refine ⟨rfl, ?_, rfl⟩
  intro e
  cases e <;> decide

/-- A SOL opportunity carried by the (mexc spot, gateio futures) pair. -/
def solOpportunity : SpreadOpportunity :=
  ⟨"SOLUSDT", "SOL", .mexc, 100, .gateio, 105, 5, none, none⟩

/-- The same SOL opportunity carried by a different exchange pair
(bingx spot, gateio futures). -/
def solOpportunityOtherPair : SpreadOpportunity :=
  ⟨"SOLUSDT", "SOL", .bingx, 100, .gateio, 105, 5, none, none⟩

/-- Gate state after the scan loop emitted `solOpportunity` at t = 0. -/
def solCooldownState : List (String × ℚ) :=
  (checkAlertCooldown [] 0 solOpportunity).2

/-- C3 counterexample: after an alert for base asset SOL at t = 0 the
claim says every re-offer at t = 600 is suppressed (window 1800,
keyed on the base asset).  The gate the scan loop actually consults —
`SpreadCalculator.check_alert_cooldown` — emits both: its window is the
hardcoded 60 s, and its key is symbol:spot_exchange:futures_exchange,
so even a different exchange pair is gated independently. -/
theorem cooldown_reoffer_at_600_emitted :
    (checkAlertCooldown solCooldownState 600 solOpportunity).1 = true ∧
    (checkAlertCooldown solCooldownState 600 solOpportunityOtherPair).1 = true := by
  constructor <;>
    · simp [checkAlertCooldown, solCooldownState, solOpportunity, solOpportunityOtherPair,
        cooldownKey, alertCooldownSeconds, alookup, aupsert, ExchangeType.value]
      try norm_num

/-- C3 amended: the gate consulted by the scan loop keys on
`symbol:spot_exchange:futures_exchange` with a hardcoded 60 s window: it
returns true iff the key is absent or at least 60 s have elapsed, records
the timestamp exactly when it returns true, and does not mutate when it
returns false (src/core/calculator.py lines 168-186). -/
theorem check_alert_cooldown_characterization
    (st : List (String × ℚ)) (now : ℚ) (opp : SpreadOpportunity) :
    ((checkAlertCooldown st now opp).1 = true ↔
      ∀ last, alookup (cooldownKey opp) st = some last → alertCooldownSeconds ≤ now - last) ∧
    ((checkAlertCooldown st now opp).1 = true →
      (checkAlertCooldown st now opp).2 = aupsert (cooldownKey opp) now st) ∧
    ((checkAlertCooldown st now opp).1 = false →
      (checkAlertCooldown st now opp).2 = st) := by
  rcases hl : alookup (cooldownKey opp) st with _ | last
  · refine ⟨⟨fun _ last hlast => Option.noConfusion hlast,
      fun _ => by simp [checkAlertCooldown, hl]⟩,
      fun _ => by simp [checkAlertCooldown, hl], fun hfalse => ?_⟩
    simp [checkAlertCooldown, hl] at hfalse
  · by_cases hlt : now - last < alertCooldownSeconds
    · refine ⟨⟨fun htrue => ?_, fun hall => ?_⟩, fun htrue => ?_, fun _ => ?_⟩
      · simp [checkAlertCooldown, hl, if_pos hlt] at htrue
      · exact absurd (hall last rfl) (not_le.2 hlt)
      · simp [checkAlertCooldown, hl, if_pos hlt] at htrue
      · simp [checkAlertCooldown, hl, if_pos hlt]
    · refine ⟨⟨fun _ l hlast => ?_, fun _ => ?_⟩, fun _ => ?_, fun hfalse => ?_⟩
      · injection hlast with hll
        exact hll ▸ not_lt.1 hlt
      · simp [checkAlertCooldown, hl, if_neg hlt]
      · simp [checkAlertCooldown, hl, if_neg hlt]
      · simp [checkAlertCooldown, hl, if_neg hlt] at hfalse

/-- Witness for the C3 characterization: with "SOLUSDT:mexc:gateio" last
alerted at t = 0, the gate emits again at t = 600 (elapsed 600 ≥ 60) and
records the new timestamp. -/
theorem check_alert_cooldown_characterization_witness :
    (checkAlertCooldown [("SOLUSDT:mexc:gateio", 0)] 600 solOpportunity).1 = true ∧
    (checkAlertCooldown [("SOLUSDT:mexc:gateio", 0)] 600 solOpportunity).2 =
      aupsert "SOLUSDT:mexc:gateio" 600 [("SOLUSDT:mexc:gateio", 0)] := by
  have h := check_alert_cooldown_characterization [("SOLUSDT:mexc:gateio", 0)] 600 solOpportunity
  have hkey : cooldownKey solOpportunity = "SOLUSDT:mexc:gateio" := by decide
  have htrue : (checkAlertCooldown [("SOLUSDT:mexc:gateio", 0)] 600 solOpportunity).1 = true := by
    refine h.1.2 ?_
    intro last hlast
    rw [hkey] at hlast
    simp [alookup] at hlast
    rw [← hlast]
    norm_num [alertCooldownSeconds]
  exact ⟨htrue, hkey ▸ h.2.1 htrue⟩

/-- ETHUSDT spot updates of the S4 tie scenario (both 100), written in
the order mexc then bingx. -/
def s4SpotMexc : PriceUpdate := ⟨"ETHUSDT", .mexc, .spot, 100, 0, none, none⟩

/-- Second S4 spot venue. -/
def s4SpotBingx : PriceUpdate := ⟨"ETHUSDT", .bingx, .spot, 100, 0, none, none⟩

/-- First S4 futures venue (105). -/
def s4FutMexc : PriceUpdate := ⟨"ETHUSDT", .mexc, .futures, 105, 0, none, none⟩

/-- Second S4 futures venue (105). -/
def s4FutGateio : PriceUpdate := ⟨"ETHUSDT", .gateio, .futures, 105, 0, none, none⟩

/-- Cache of the S4 tie scenario, built by four `update_price` calls in
the order mexc-spot, bingx-spot, mexc-futures, gateio-futures. -/
def s4Cache : PriceCacheState :=
  updatePrice (updatePrice (updatePrice (updatePrice emptyCache 0 s4SpotMexc) 0 s4SpotBingx)
    0 s4FutMexc) 0 s4FutGateio

/-- Spot snapshot of the S4 scenario. -/
def s4Spot : Snapshot := getAllSpotPrices s4Cache

/-- Futures snapshot of the S4 scenario. -/
def s4Futures : Snapshot := getAllFuturesPrices s4Cache

/-- The S4 snapshots group in cache insertion order. -/
theorem s4Snapshots_eq :
    s4Spot = [("ETHUSDT", [(.mexc, s4SpotMexc), (.bingx, s4SpotBingx)])] ∧
    s4Futures = [("ETHUSDT", [(.mexc, s4FutMexc), (.gateio, s4FutGateio)])] := by
  constructor <;> decide

/-- The base asset of ETHUSDT under the source's double replace. -/
theorem baseAsset_ETHUSDT : baseAssetOf "ETHUSDT" = "ETH" := by decide

/-- The four tied S4 opportunities come out in scan order — spot mexc
before spot bingx (the cache insertion order), futures mexc before
futures gateio — not in any lexicographic order. -/
theorem s4_findOpportunities_eq :
    (findOpportunities s4Spot s4Futures none 3).map
      (fun o => (o.spread_percent, o.spot_exchange, o.futures_exchange)) =
      [(5, .mexc, .mexc), (5, .mexc, .gateio), (5, .bingx, .mexc), (5, .bingx, .gateio)] := by
  rw [s4Snapshots_eq.1, s4Snapshots_eq.2]
  norm_num [findOpportunities, acceptedCandidates, commonSymbols, alookup, passesExchangeFilter,
    calculate_spread, is_realistic_spread, mkOpportunity, sortBySpreadDesc, insertBySpread,
    round4, roundHalfEven, baseAsset_ETHUSDT, detectionLatency, truthyOpt,
    s4SpotMexc, s4SpotBingx, s4FutMexc, s4FutGateio, List.filterMap_cons, List.flatMap_cons,
    List.flatMap_nil]

/-- C5 counterexample: on the S4 tie input (spot mexc and bingx at 100,
futures mexc and gateio at 105, inserted in that order) the four equal-
spread opportunities do NOT come out ordered by (symbol, lower
spot_exchange, lower futures_exchange): the sort key is spread_percent
alone (src/core/calculator.py line 158) and Python's stable sort keeps
the scan order, which starts with spot mexc although bingx < mexc. -/
theorem tie_order_not_lexicographic :
    ¬((findOpportunities s4Spot s4Futures none 3).map
        (fun o => (o.spread_percent, o.spot_exchange, o.futures_exchange)) =
      [(5, .bingx, .gateio), (5, .bingx, .mexc), (5, .mexc, .gateio), (5, .mexc, .mexc)]) := by
  intro hcontra
  rw [s4_findOpportunities_eq] at hcontra
  exact absurd hcontra (by decide)

/-- C5 amended: the returned list is sorted by non-increasing
`spread_percent`, but that is the entire sort key: equal-spread
opportunities keep the scan's append order (Python's sort is stable), so
on the S4 tie input the order is (mexc,mexc), (mexc,gateio),
(bingx,mexc), (bingx,gateio) — the cache insertion order, not the
lexicographic tie-break the claim states. -/
theorem find_opportunities_sorted_by_spread :
    (∀ (spot futures : Snapshot) (exchanges : Option (List ExchangeType)) (threshold : ℚ),
      (findOpportunities spot futures exchanges threshold).Pairwise
        (fun a b => b.spread_percent ≤ a.spread_percent)) ∧
    (findOpportunities s4Spot s4Futures none 3).map
      (fun o => (o.spread_percent, o.spot_exchange, o.futures_exchange)) =
      [(5, .mexc, .mexc), (5, .mexc, .gateio), (5, .bingx, .mexc), (5, .bingx, .gateio)] :=
  ⟨fun spot futures exchanges threshold => pairwise_sortBySpreadDesc _,
   s4_findOpportunities_eq⟩

/-- Spot update of the C6 rounding scenario: (mexc, spot, BTCUSDT, 100). -/
def c6SpotUpdate : PriceUpdate := ⟨"BTCUSDT", .mexc, .spot, 100, 0, none, none⟩

/-- Futures update of the C6 rounding scenario: price 149.99999 gives a
raw spread of 49.99999, inside the `< 50` guard, that rounds to 50.0. -/
def c6FuturesUpdate : PriceUpdate :=
  ⟨"BTCUSDT", .gateio, .futures, 14999999 / 100000, 0, none, none⟩

/-- Spot snapshot of the C6 rounding scenario. -/
def c6Spot : Snapshot := [("BTCUSDT", [(.mexc, c6SpotUpdate)])]

/-- Futures snapshot of the C6 rounding scenario. -/
def c6Futures : Snapshot := [("BTCUSDT", [(.gateio, c6FuturesUpdate)])]

/-- C6 counterexample: with spot 100 and futures 149.99999 the raw spread
49.99999 passes the guards (threshold 3, `0 < s < 50`), but the STORED
`spread_percent` is `round(49.99999, 4) = 50.0`, so the claimed bound
`spread_percent < 50` fails for the stored field. -/
theorem rounded_spread_reaches_fifty :
    (findOpportunities c6Spot c6Futures none 3).map (fun o => o.spread_percent) = [50] ∧
    ¬(∀ o ∈ findOpportunities c6Spot c6Futures none 3, o.spread_percent < 50) := by
  have h : (findOpportunities c6Spot c6Futures none 3).map (fun o => o.spread_percent) = [50] := by
    norm_num [findOpportunities, acceptedCandidates, commonSymbols, alookup, passesExchangeFilter,
      calculate_spread, is_realistic_spread, mkOpportunity, sortBySpreadDesc, insertBySpread,
      round4, roundHalfEven, baseAsset_BTCUSDT, detectionLatency, truthyOpt,
      c6Spot, c6Futures, c6SpotUpdate, c6FuturesUpdate, List.filterMap_cons, List.flatMap_cons,
      List.flatMap_nil]
  refine ⟨h, fun hall => ?_⟩
  rcases hmap : findOpportunities c6Spot c6Futures none 3 with _ | ⟨o, t⟩
  · rw [hmap] at h
    simp at h
  · have ho := hall o (hmap ▸ List.mem_cons_self o t)
    rw [hmap] at h
    simp only [List.map_cons, List.cons.injEq] at h
    rw [h.1] at ho
    exact absurd ho (by norm_num)

/-- C6 amended: every returned opportunity has futures price strictly
above spot price, and its RAW spread — recomputed from its own stored
sides — satisfies `threshold ≤ raw < 50`; the stored `spread_percent` is
that raw spread rounded half-to-even to 4 decimals
(src/core/calculator.py lines 127-153), which can land on exactly 50, so
the strict bound holds for the raw spread, not for the stored field. -/
theorem find_opportunities_accept_bounds (spot futures : Snapshot)
    (exchanges : Option (List ExchangeType)) (threshold : ℚ) (o : SpreadOpportunity)
    (ho : o ∈ findOpportunities spot futures exchanges threshold) :
    o.spot_price < o.futures_price ∧
    threshold ≤ calculate_spread o.spot_price o.futures_price ∧
    calculate_spread o.spot_price o.futures_price < 50 ∧
    o.spread_percent = round4 (calculate_spread o.spot_price o.futures_price) := by
  rw [findOpportunities] at ho
  obtain ⟨c, hc, rfl⟩ := List.mem_map.1 (mem_sortBySpreadDesc.1 ho)
  obtain ⟨heq, hthr, hpos, hlt⟩ := mem_acceptedCandidates hc
  have hsides : (mkOpportunity c).spot_price = c.spot_data.price ∧
      (mkOpportunity c).futures_price = c.futures_data.price ∧
      (mkOpportunity c).spread_percent = round4 c.spread := ⟨rfl, rfl, rfl⟩
  rw [hsides.1, hsides.2.1, hsides.2.2, ← heq]
  refine ⟨?_, hthr, hlt, rfl⟩
  by_cases hz : c.spot_data.price ≤ 0 ∨ c.futures_data.price ≤ 0
  · rw [calculate_spread, if_pos hz] at heq
    rw [heq] at hpos
    exact absurd hpos (lt_irrefl 0)
  · push_neg at hz
    rw [calculate_spread, if_neg (by push_neg; exact hz)] at heq
    have hsp : 0 < c.spot_data.price := hz.1
    have hq : 0 < (c.futures_data.price - c.spot_data.price) / c.spot_data.price := by
      nlinarith [heq ▸ hpos]
    have := (div_pos_iff).1 hq
    rcases this with ⟨hnum, _⟩ | ⟨_, hden⟩
    · linarith
    · linarith

/-- Witness for the C6 bounds: the S1 opportunity (spot 30000 at mexc,
futures 31200 at gateio, threshold 3) satisfies them. -/
theorem find_opportunities_accept_bounds_witness :
    s1Opportunity.spot_price < s1Opportunity.futures_price ∧
    (3 : ℚ) ≤ calculate_spread s1Opportunity.spot_price s1Opportunity.futures_price ∧
    calculate_spread s1Opportunity.spot_price s1Opportunity.futures_price < 50 ∧
    s1Opportunity.spread_percent =
      round4 (calculate_spread s1Opportunity.spot_price s1Opportunity.futures_price) :=
  find_opportunities_accept_bounds s1Spot s1Futures none 3 s1Opportunity
    (by rw [s1_findOpportunities_eq]; exact List.mem_singleton_self _)

/-- A subscriber filter set with min_volume 100000 USD (all else
default). -/
def strictVolumeFilters : UserFilters :=
  ⟨3, 50, 100000, ["mexc", "gateio", "bingx", "htx"]⟩

/-- C7 counterexample: for an opportunity with unknown (none) volume, the
delivery path does NOT pass the volume test regardless of min_volume:
`send_alert` coerces `opp.volume_24h or 0` to 0
(src/bot/notifications.py line 118), so a subscriber with min_volume
100000 rejects it — although `UserFilters.is_volume_valid` itself maps
none to pass. -/
theorem none_volume_rejected_on_delivery :
    solOpportunity.volume_24h = none ∧
    UserFilters.is_volume_valid strictVolumeFilters none = true ∧
    deliveryVolumeCheck strictVolumeFilters none = false ∧
    userPassesFilters (some [(7, strictVolumeFilters)]) 7 solOpportunity = false := by
  refine ⟨rfl, rfl, by decide, by decide⟩

/-- C7 amended: `is_volume_valid` passes a `none` volume unconditionally,
but the delivery path replaces `none` by 0 before the filter sees it, so
on that path the volume conjunct is `min_volume ≤ 0` — an unknown-volume
opportunity passes the volume test only for subscribers with
non-positive min_volume. -/
theorem delivery_volume_coercion :
    (∀ f : UserFilters, f.is_volume_valid none = true) ∧
    (∀ (f : UserFilters) (v : Option ℚ),
      deliveryVolumeCheck f v = decide (f.min_volume ≤ v.getD 0)) ∧
    (∀ (fs : List (Int × UserFilters)) (userId : Int) (o : SpreadOpportunity),
      o.volume_24h = none →
      userPassesFilters (some fs) userId o =
        ((getFilters fs userId).is_spread_valid o.spread_percent &&
          decide ((getFilters fs userId).min_volume ≤ 0) &&
          (getFilters fs userId).is_exchange_enabled o.spot_exchange.value &&
          (getFilters fs userId).is_exchange_enabled o.futures_exchange.value)) := by
  refine ⟨fun f => rfl, fun f v => rfl, fun fs userId o h => ?_⟩
  simp only [userPassesFilters, shouldSendAlert, UserFilters.should_alert, deliveryVolumeArg, h,
    Option.getD_none]
  cases hs : (getFilters fs userId).is_spread_valid o.spread_percent <;>
    cases hv : (getFilters fs userId).is_volume_valid (some 0) <;>
      cases he1 : (getFilters fs userId).is_exchange_enabled o.spot_exchange.value <;>
        cases he2 : (getFilters fs userId).is_exchange_enabled o.futures_exchange.value <;>
          simp_all [UserFilters.is_volume_valid]

/-- Witness for the C7 coercion: a none-volume opportunity against a
min_volume-100000 subscriber evaluates to the stated conjunction (false
here, since 100000 ≤ 0 fails). -/
theorem delivery_volume_coercion_witness :
    userPassesFilters (some [(7, strictVolumeFilters)]) 7 solOpportunity =
      ((getFilters [(7, strictVolumeFilters)] 7).is_spread_valid solOpportunity.spread_percent &&
        decide ((getFilters [(7, strictVolumeFilters)] 7).min_volume ≤ 0) &&
        (getFilters [(7, strictVolumeFilters)] 7).is_exchange_enabled
          solOpportunity.spot_exchange.value &&
        (getFilters [(7, strictVolumeFilters)] 7).is_exchange_enabled
          solOpportunity.futures_exchange.value) :=
  delivery_volume_coercion.2.2 [(7, strictVolumeFilters)] 7 solOpportunity rfl

/-- Five consecutive network failures, then the circuit would be expected
to be open. -/
def fiveFailures : List (ℚ × RestOutcome) :=
  [(1, .netFailure), (2, .netFailure), (3, .netFailure), (4, .netFailure), (5, .netFailure)]

/-- Sequence the standalone `CircuitBreaker.call` embedding over timed
outcomes (true = wrapped call succeeds). -/
def breakerCallSeq (b : CircuitBreakerState) : List (ℚ × Bool) → Except Unit CircuitBreakerState
  | [] => .ok b
  | (t, s) :: rest =>
    match circuitBreakerCall b t s with
    | .error _ => .error ()
    | .ok (b1, _) => breakerCallSeq b1 rest

/-- C8 counterexample: after 5 consecutive network failures the claim
says the breaker is open and the next call within 30 s fails fast without
performing the request.  In the code `_rest_request` never consults the
breaker (src/exchanges/base.py lines 254-287): after five failures the
breaker is still in its initial closed state with failure_count 0, and a
sixth call at t = 6 still performs the request. -/
theorem breaker_never_opens_after_failures :
    (restSeq initialConnectorRest fiveFailures).breaker = initialBreaker ∧
    (restSeq initialConnectorRest fiveFailures).errors = 5 ∧
    (restRequest (restSeq initialConnectorRest fiveFailures) 6 .netFailure).2 = true := by
  refine ⟨?_, ?_, ?_⟩ <;> simp [restSeq, restRequest, fiveFailures, initialConnectorRest]

/-- C8 amended: every REST call passes through the token-bucket limiter
constructed with rate 10/s and capacity 20, but the circuit breaker —
although constructed with threshold 5 and recovery 30 s, and although its
own `call` does implement open / fail-fast / half-open-probe / close-on-
success — is never invoked by `_rest_request`: every call performs the
request and leaves the breaker untouched. -/
theorem rest_request_bypasses_breaker :
    initialConnectorRest.limiter.rate = 10 ∧
    initialConnectorRest.limiter.capacity = 20 ∧
    initialConnectorRest.breaker = ⟨5, 30, 0, none, .closedPhase⟩ ∧
    (∀ (st : ConnectorRestState) (now : ℚ) (outcome : RestOutcome),
      (restRequest st now outcome).2 = true ∧
      (restRequest st now outcome).1.breaker = st.breaker) ∧
    breakerCallSeq initialBreaker [(1, false), (2, false), (3, false), (4, false), (5, false)] =
      .ok ⟨5, 30, 5, some 5, .openPhase⟩ ∧
    circuitBreakerCall ⟨5, 30, 5, some 5, .openPhase⟩ 20 true = .error () ∧
    circuitBreakerCall ⟨5, 30, 5, some 5, .openPhase⟩ 40 true =
      .ok (⟨5, 30, 0, some 5, .closedPhase⟩, true) := by
  refine ⟨rfl, rfl, rfl, fun st now outcome => ?_, ?_, ?_, ?_⟩
  · cases outcome <;> exact ⟨rfl, rfl⟩
  · rfl
  · norm_num [circuitBreakerCall, breakerBeforeCall]
  · norm_num [circuitBreakerCall, breakerBeforeCall, breakerAfterSuccess]

/-- C9 counterexample: a MEXC spot frame for FAKEUSDT — a symbol absent
from the connector's known set — is NOT rejected: the parser emits a
price update for it (src/exchanges/mexc/client.py lines 229-253 perform
no known-set check). -/
theorem unknown_symbol_update_emitted :
    ¬("FAKEUSDT" ∈ (["BTCUSDT"] : List String)) ∧
    parseSpotWsMessage ["BTCUSDT"] ⟨true, "FAKEUSDT", 1, 3⟩ =
      some ⟨"FAKEUSDT", .mexc, .spot, 2, 0, none, none⟩ := by
  refine ⟨by decide, ?_⟩
  norm_num [parseSpotWsMessage]

/-- C9 amended: the MEXC parsers validate only the frame shape and price
positivity; the known symbol set is never consulted — their output is
identical under any two known sets, and any well-shaped frame with
positive prices yields an update whatever its symbol. -/
theorem parsers_ignore_known_symbols :
    (∀ (k1 k2 : List String) (m : MexcSpotWsMsg),
      parseSpotWsMessage k1 m = parseSpotWsMessage k2 m) ∧
    (∀ (k1 k2 : List String) (m : MexcFuturesWsMsg),
      parseFuturesWsMessage k1 m = parseFuturesWsMessage k2 m) ∧
    (∀ (k : List String) (m : MexcSpotWsMsg), m.has_d_s = true → 0 < m.b → 0 < m.a →
      parseSpotWsMessage k m =
        some ⟨m.s, .mexc, .spot, (m.b + m.a) / 2, 0, none, none⟩) :=
  ⟨fun _ _ _ => rfl, fun _ _ _ => rfl, fun k m h hb ha => by
    simp [parseSpotWsMessage, h, decide_eq_true hb, decide_eq_true ha]⟩

/-- Witness for the C9 parser characterization at a concrete frame whose
symbol is outside the supplied known set. -/
theorem parsers_ignore_known_symbols_witness :
    parseSpotWsMessage ["ETHUSDT"] ⟨true, "FAKEUSDT", 1, 3⟩ =
      some ⟨"FAKEUSDT", .mexc, .spot, (1 + 3) / 2, 0, none, none⟩ ∧
    (0 : ℚ) < 1 ∧ (0 : ℚ) < 3 :=
  ⟨parsers_ignore_known_symbols.2.2 ["ETHUSDT"] ⟨true, "FAKEUSDT", 1, 3⟩ rfl (by norm_num)
      (by norm_num),
    by norm_num, by norm_num⟩

/-- C10: when `send_alert` runs with a non-empty subscriber set and the
base-asset cooldown passes, the new timestamp is recorded (line 100 of
src/bot/notifications.py) before any per-subscriber filter is evaluated
and independently of every filter and send outcome; consequently a later
alert for the same base asset within the 1800 s window is suppressed
entirely — it delivers to nobody and changes nothing — even when the
first alert was delivered to zero subscribers. -/
theorem send_alert_records_cooldown_before_filtering
    (st : NotifState) (now t2 : ℚ) (opp opp2 : SpreadOpportunity)
    (hsubs : st.subscribers.isEmpty = false)
    (hcool : ∀ last, alookup opp.base_asset st.lastNotificationTime = some last →
      notificationCooldown ≤ now - last)
    (hsame : opp2.base_asset = opp.base_asset)
    (ht : t2 - now < notificationCooldown) :
    alookup opp.base_asset (sendAlert st now opp).1.lastNotificationTime = some now ∧
    sendAlert (sendAlert st now opp).1 t2 opp2 = ((sendAlert st now opp).1, []) := by
  have hproceed : (match alookup opp.base_asset st.lastNotificationTime with
      | some last => decide (¬(now - last < notificationCooldown))
      | none => true) = true := by
    rcases hl : alookup opp.base_asset st.lastNotificationTime with _ | last
    · rfl
    · exact decide_eq_true (not_lt.2 (hcool last hl))
  have h1 : sendAlert st now opp =
      ({ st with lastNotificationTime := aupsert opp.base_asset now st.lastNotificationTime },
        st.subscribers.filter fun userId => userPassesFilters st.filterService userId opp) := by
    rw [sendAlert, if_neg (by simp [hsubs]), if_pos (by exact hproceed)]
  refine ⟨?_, ?_⟩
  · rw [h1]
    exact alookup_aupsert_self _ _ _
  · rw [h1]
    rw [sendAlert, if_neg (by simp [hsubs])]
    have hlook : alookup opp2.base_asset
        (aupsert opp.base_asset now st.lastNotificationTime) = some now := by
      rw [hsame]
      exact alookup_aupsert_self _ _ _
    rw [if_neg]
    simp only [hlook]
    simp [ht]

/-- Notification state with one subscriber whose filters (min_volume
100000) will reject the none-volume SOL opportunity. -/
def notifState0 : NotifState := ⟨[7], [], some [(7, strictVolumeFilters)]⟩

/-- Witness for C10: the SOL alert at t = 0 is delivered to zero
subscribers (the only subscriber's volume filter rejects it), yet the
cooldown timestamp is recorded, and a SOL re-offer at t = 600 — on a
different exchange pair — is fully suppressed. -/
theorem send_alert_records_cooldown_before_filtering_witness :
    (sendAlert notifState0 0 solOpportunity).2 = [] ∧
    alookup solOpportunity.base_asset
      (sendAlert notifState0 0 solOpportunity).1.lastNotificationTime = some 0 ∧
    sendAlert (sendAlert notifState0 0 solOpportunity).1 600 solOpportunityOtherPair =
      ((sendAlert notifState0 0 solOpportunity).1, []) := by
  have h := send_alert_records_cooldown_before_filtering notifState0 0 600 solOpportunity
    solOpportunityOtherPair rfl
    (fun last hlast => by simp [notifState0, alookup] at hlast) rfl
    (by norm_num [notificationCooldown])
  exact ⟨by decide, h.1, h.2⟩
